import Mathlib

/-!
# Verification of the mintpool node control plane

Shallow embedding of the mintpool sources (`src/controller.rs`, `src/chain.rs`,
`src/run.rs`, `src/premints/zora_premint/v2.rs`) and proofs about them.

Machine integers (`u64`, `u32`, 160-bit addresses, 256-bit hashes) are modelled
as `Nat`: none of the embedded code performs arithmetic that can overflow — the
values are only compared for equality, looked up, and formatted.  Fallible Rust
code (`eyre::Result`) is modelled with `Except String`, `Option` fields model
Rust `Option` fields, and external effects (RPC responses, database success,
channel delivery) are passed in explicitly as data.
-/

namespace Mintpool

/-! ## Core wire / data types (`src/types.rs` shapes as used by the embedded code) -/

/-- `InclusionClaim` (spec §3): asserts "premint `premint_id` was included on
chain `chain_id` at `(tx_hash, log_index)`".  `tx_hash` is a 256-bit hash
modelled as `Nat`; `log_index` is a `u64`. -/
structure InclusionClaim where
  premint_id : String
  chain_id : Nat
  tx_hash : Nat
  log_index : Nat
  kind : String
deriving DecidableEq, Repr

/-- `PeerInclusionClaim`: a claim received from a gossip peer, never
auto-trusted.  Peer ids are abstracted to `Nat`. -/
structure PeerInclusionClaim where
  from_peer_id : Nat
  claim : InclusionClaim
deriving DecidableEq, Repr

/-- The decoded `PremintedV2` factory event.  The ABI struct lives in
`contract.rs` (not under `src/`); only the two fields the embedded code reads —
`contractAddress` (an address) and `uid` (a `u32`) — are modelled. -/
structure PremintedV2 where
  contractAddress : Nat
  uid : Nat
deriving DecidableEq, Repr

/-- An EVM log as consumed by `verify_claim` / `map_claim`.
`decoded` models the outcome of `IZoraPremintV2::PremintedV2::decode_raw_log`
on the log's topics and data: `some ev` when the log decodes as a `PremintedV2`
event, `none` on a decode failure.  The remaining fields mirror the alloy
`Log` fields the source reads: `address`, `transaction_hash` (optional),
`log_index` (optional), `block_number` (optional). -/
structure Log where
  address : Nat
  decoded : Option PremintedV2
  transaction_hash : Option Nat
  log_index : Option Nat
  block_number : Option Nat
deriving DecidableEq, Repr

/-- A transaction receipt: the transaction hash and its ordered logs
(`tx.inner.logs()`). -/
structure TransactionReceipt where
  transaction_hash : Nat
  logs : List Log
deriving DecidableEq, Repr

/-! ## ZoraPremintV2 (`src/premints/zora_premint/v2.rs`) -/

/-- `TokenCreationConfigV2` (= `IZoraPremintV2::TokenCreationConfig`). -/
structure TokenCreationConfigV2 where
  tokenURI : String
  maxSupply : Nat
  maxTokensPerAddress : Nat
  pricePerToken : Nat
  mintStart : Nat
  mintDuration : Nat
  royaltyBPS : Nat
  payoutRecipient : Nat
  fixedPriceMinter : Nat
  createReferral : Nat
deriving DecidableEq, Repr

/-- `PremintConfigV2` (= `IZoraPremintV2::CreatorAttribution`): `uid` and
`version` are `u32` in the ABI. -/
structure PremintConfigV2 where
  tokenConfig : TokenCreationConfigV2
  uid : Nat
  version : Nat
  deleted : Bool
deriving DecidableEq, Repr

/-- `ContractCreationConfigV2` (= `IZoraPremintV2::ContractCreationConfig`). -/
structure ContractCreationConfigV2 where
  contractAdmin : Nat
  contractURI : String
  contractName : String
deriving DecidableEq, Repr

/-- `ZoraPremintV2`: the one concrete premint kind present under `src/`. -/
structure ZoraPremintV2 where
  collection : ContractCreationConfigV2
  premint : PremintConfigV2
  collection_address : Nat
  chain_id : Nat
  signature : String
deriving DecidableEq, Repr

/-- `PremintMetadata` as produced by `ZoraPremintV2::metadata`. -/
structure PremintMetadata where
  id : String
  version : Nat
  kind : String
  signer : Nat
  chain_id : Nat
  collection_address : Nat
  token_id : Nat
  uri : String
deriving DecidableEq, Repr

/-- `ZORA_PREMINT_V2_FACTORY` / `PREMINT_FACTORY_ADDR` as an abstract address
value (the concrete 160-bit constant lives in `contract.rs`, outside `src/`;
only its identity matters to the embedded code). -/
def PREMINT_FACTORY_ADDR : Nat := 0x7777773606e7e46C8Ba8B98C08f5cD218e31d340

/-- Rust `Debug` for an alloy `Address` prints `0x` followed by the 20 bytes in
lowercase hex: the 40 hex nibbles from most to least significant, zero-padded.
The address value is the low 160 bits of `a`; nibble `i` (counting from the
least significant) is `a / 16 ^ i % 16`, and `Nat.digitChar` maps `0 ↦ '0'` …
`15 ↦ 'f'` (lowercase). -/
def addressDebugFmt (a : Nat) : String :=
  "0x" ++ String.mk ((List.range 40).reverse.map
    (fun i => Nat.digitChar (a / 16 ^ i % 16)))

/-- `ZoraPremintV2::event_to_guid`:
`format!("{:?}:{:?}:{:?}", chain_id, event.contractAddress, event.uid)` —
decimal for the integers, 0x-prefixed lowercase hex for the address. -/
def event_to_guid (chain_id : Nat) (event : PremintedV2) : String :=
  toString chain_id ++ ":" ++ addressDebugFmt event.contractAddress ++ ":"
    ++ toString event.uid

namespace ZoraPremintV2

/-- `ZoraPremintV2::metadata`: the id is
`format!("{:?}:{:?}:{:?}", self.chain_id, self.collection_address, self.premint.uid)`;
`collection_address` in the metadata is `Address::default()` (the source marks
it `// TODO: source this`). -/
def metadata (self : ZoraPremintV2) : PremintMetadata :=
  { id := toString self.chain_id ++ ":" ++ addressDebugFmt self.collection_address
          ++ ":" ++ toString self.premint.uid
    version := self.premint.version
    kind := "zora_premint_v2"
    signer := self.collection.contractAdmin
    chain_id := self.chain_id
    collection_address := 0
    token_id := self.premint.uid
    uri := self.premint.tokenConfig.tokenURI }

/-- `ZoraPremintV2::map_claim`: decode the log as a `PremintedV2` event (error
on decode failure), rebuild the guid, and read `tx_hash` / `log_index` with
`unwrap_or_default()`. -/
def map_claim (chain_id : Nat) (log : Log) : Except String InclusionClaim :=
  match log.decoded with
  | none => .error "failed to decode log"
  | some event =>
      .ok { premint_id := event_to_guid chain_id event
            chain_id := chain_id
            tx_hash := log.transaction_hash.getD 0
            log_index := log.log_index.getD 0
            kind := "zora_premint_v2" }

/-- `ZoraPremintV2::verify_claim`: decode the log; on success check the nine
conditions of the source's `conditions` vector with `all`; on decode failure
return `false`. -/
def verify_claim (self : ZoraPremintV2) (chain_id : Nat)
    (tx : TransactionReceipt) (log : Log) (claim : InclusionClaim) : Bool :=
  match log.decoded with
  | some event =>
      [ log.address == PREMINT_FACTORY_ADDR,
        log.transaction_hash.getD 0 == tx.transaction_hash,
        claim.tx_hash == tx.transaction_hash,
        claim.log_index == log.log_index.getD 0,
        claim.premint_id == event_to_guid chain_id event,
        claim.kind == "zora_premint_v2",
        claim.chain_id == chain_id,
        self.collection_address == event.contractAddress,
        self.premint.uid == event.uid ].all (fun x => x)
  | none => false

end ZoraPremintV2

/-! ## Store (`src/storage.rs` is not under `src/`; modelled from the spec) -/

/-- Modelled from the spec: `Store` (§3, §4.5, §6) — `storage.rs` is not under
`src/`.  A mapping `(kind, id) → premint` together with a `seen_on_chain` set
of inclusion claims keyed by `(chain_id, tx_hash, log_index)`.  `PremintTypes`
dispatch is likewise outside `src/`; `ZoraPremintV2` is the one premint kind
present, so stored premints are `ZoraPremintV2` values. -/
structure StoreState where
  premints : List (String × String × ZoraPremintV2)
  seen : List InclusionClaim
deriving DecidableEq, Repr

/-- The `(chain_id, tx_hash, log_index)` key of the seen-on-chain table
(spec §6: "one table of inclusion claims keyed by
`(chain_id, tx_hash, log_index)`"). -/
def claimKeyEq (a b : InclusionClaim) : Bool :=
  a.chain_id == b.chain_id && a.tx_hash == b.tx_hash && a.log_index == b.log_index

namespace StoreState

/-- Modelled from the spec: `Store.get_for_id_and_kind(id, kind)` (§4.5
"single-row lookup"); `none` when no row matches (the Rust call returns an
error then, which the caller propagates). -/
def get_for_id_and_kind (s : StoreState) (id kind : String) :
    Option ZoraPremintV2 :=
  (s.premints.find? (fun row => row.1 == kind && row.2.1 == id)).map (·.2.2)

/-- Modelled from the spec: `Store.mark_seen_on_chain(claim)` (§4.5 "upsert
into seen set; idempotent"). -/
def mark_seen_on_chain (s : StoreState) (c : InclusionClaim) : StoreState :=
  if s.seen.any (claimKeyEq c) then s else { s with seen := s.seen ++ [c] }

/-- Modelled from the spec: `Store.store(premint)` (§4.5 "persist; return error
if `version` would not advance an existing row of same `(kind, id)`"; §3
"re-storing the same `(kind,id)` is accepted iff it carries a strictly greater
`version`"). -/
def store (s : StoreState) (p : ZoraPremintV2) : Except String StoreState :=
  let md := p.metadata
  match s.get_for_id_and_kind md.id md.kind with
  | some existing =>
      if existing.metadata.version < md.version then
        .ok { s with premints :=
          s.premints.map (fun row =>
            if row.1 == md.kind && row.2.1 == md.id then (md.kind, md.id, p)
            else row) }
      else .error "version did not advance"
  | none => .ok { s with premints := s.premints ++ [(md.kind, md.id, p)] }

end StoreState

/-! ## ChainClient pool and `inclusion_claim_correct` (`src/chain.rs`) -/

/-- The observable chain data `inclusion_claim_correct` consumes: a per-chain
map from transaction hash to receipt (`get_transaction_receipt`). -/
structure ChainClient where
  receipts : List (Nat × TransactionReceipt)
deriving Repr

/-- The `CHAINS` pool: `get_rpc(chain_id)` succeeds for the chains listed. -/
structure ChainContext where
  chains : List (Nat × ChainClient)
deriving Repr

/-- `inclusion_claim_correct(premint, claim)` (`src/chain.rs:123-142`):
resolve the chain's RPC handle, fetch the receipt for `claim.tx_hash` (error
"transaction not found" if absent), index its logs by `claim.log_index`
(error "log index not found" if out of range), and return
`premint.verify_claim(claim.chain_id, tx, log, claim)`. -/
def inclusion_claim_correct (ctx : ChainContext) (premint : ZoraPremintV2)
    (claim : InclusionClaim) : Except String Bool :=
  match (ctx.chains.find? (fun e => e.1 == claim.chain_id)).map (·.2) with
  | none => .error "no rpc for chain"
  | some chain =>
      match (chain.receipts.find? (fun e => e.1 == claim.tx_hash)).map (·.2) with
      | none => .error "transaction not found"
      | some tx =>
          match tx.logs.get? claim.log_index with
          | none => .error "log index not found"
          | some log =>
              .ok (premint.verify_claim claim.chain_id tx log claim)

/-! ## Controller (`src/controller.rs`) -/

/-- `ChainInclusionMode` (`src/config.rs`, referenced by the controller). -/
inductive ChainInclusionMode where
  | check
  | verify
  | trust
deriving DecidableEq, Repr

/-- The controller state the embedded handlers read:
`trusted_peers` and `inclusion_mode` from the config, plus the store.
The swarm command sender is modelled by returning the list of commands the
handler sends; the chain context stands in for the global `CHAINS` pool. -/
structure Controller where
  trusted_peers : List Nat
  inclusion_mode : ChainInclusionMode
  store : StoreState
deriving Repr

/-- `SwarmCommand` — the variants the embedded handlers emit. -/
inductive SwarmCommand where
  | broadcast (message : ZoraPremintV2)
  | sendOnchainMintFound (claim : InclusionClaim)
deriving DecidableEq, Repr

/-- `Controller::handle_event_onchain_claim` (`src/controller.rs:238-279`).
In `Check`/`Verify` mode: look the premint up by `(claim.premint_id,
claim.kind)` — a failed lookup propagates as an error (`?`) without touching
the store; then mark seen exactly on `inclusion_claim_correct = Ok(true)`,
ignoring every other outcome.  In `Trust` mode: mark seen iff the sending peer
is in `trusted_peers`, otherwise only log.  Returns the new store and the
handler's `eyre::Result<()>`. -/
def handle_event_onchain_claim (c : Controller) (ctx : ChainContext)
    (peer_claim : PeerInclusionClaim) : StoreState × Except String Unit :=
  match c.inclusion_mode with
  | .check | .verify =>
      let claim := peer_claim.claim
      match c.store.get_for_id_and_kind claim.premint_id claim.kind with
      | none => (c.store, .error "Error getting premint for onchain claim")
      | some premint =>
          match inclusion_claim_correct ctx premint claim with
          | .ok true => (c.store.mark_seen_on_chain claim, .ok ())
          | _ => (c.store, .ok ())
  | .trust =>
      if peer_claim.from_peer_id ∈ c.trusted_peers then
        (c.store.mark_seen_on_chain peer_claim.claim, .ok ())
      else
        (c.store, .ok ())

/-- Modelled from the spec: `Results` (§4.3) — `rules.rs` is not under `src/`.
A vector of `(rule_name, outcome)` with `outcome = true` meaning Accept;
`is_accept() ⇔ every outcome is Accept`. -/
structure Results where
  outcomes : List (String × Bool)
deriving DecidableEq, Repr

/-- `Results::is_accept`. -/
def Results.is_accept (r : Results) : Bool :=
  r.outcomes.all (·.2)

/-- Errors `validate_and_insert` can return: `rules.evaluate` itself failing
(propagated by `?`), the evaluation rejecting ("Premint failed validation"
wrapping the evaluation), or the store rejecting ("Failed to store premint"). -/
inductive ValidateError where
  | evalError (msg : String)
  | validationFailed (evaluation : Results)
  | storeFailed (msg : String)
deriving DecidableEq, Repr

/-- `Controller::validate_and_insert` (`src/controller.rs:219-236`):
`rules.evaluate` (its outcome is an input, `rules.rs` being external to the
controller); on `is_accept` persist via `Store::store` and map the store
success to the evaluation, wrapping a store error; otherwise return the
evaluation wrapped as a validation failure.  Returns the evaluation together
with the store state after the call. -/
def validate_and_insert (store : StoreState) (premint : ZoraPremintV2)
    (evalRes : Except String Results) :
    Except ValidateError (Results × StoreState) :=
  match evalRes with
  | .error msg => .error (.evalError msg)
  | .ok evaluation =>
      if evaluation.is_accept then
        match store.store premint with
        | .ok store2 => .ok (evaluation, store2)
        | .error msg => .error (.storeFailed msg)
      else
        .error (.validationFailed evaluation)

/-- The value a `Broadcast` handler sends on the caller's one-shot channel. -/
inductive BroadcastReply where
  | ok
  | errValidation (e : ValidateError)
  | errSwarmSend
deriving DecidableEq, Repr

/-- What the `Broadcast` arm of `Controller::handle_command`
(`src/controller.rs:147-173`) does, as observable data: the store afterwards,
the swarm sends attempted, and the replies attempted on the one-shot channel.
`swarmSendOk` is whether `swarm_command_sender.send` succeeds (its receiver is
external).  On `validate_and_insert` success the swarm `Broadcast` send is
attempted; reply `Ok(())` if it succeeded, else an error describing the send
failure.  On `validate_and_insert` failure the error is replied and no swarm
send is attempted. -/
def handle_broadcast (store : StoreState) (premint : ZoraPremintV2)
    (evalRes : Except String Results) (swarmSendOk : Bool) :
    StoreState × List SwarmCommand × List BroadcastReply :=
  match validate_and_insert store premint evalRes with
  | .ok (_evaluation, store2) =>
      if swarmSendOk then
        (store2, [.broadcast premint], [.ok])
      else
        (store2, [.broadcast premint], [.errSwarmSend])
  | .error e => (store, [], [.errValidation e])

/-- The `ResolveOnchainMint` arm of `Controller::handle_command`
(`src/controller.rs:192-214`): attempt `mark_seen_on_chain` on every claim,
with no validation — a failure (`markSeenOk = false`, an external database
error) is only logged; then, when the inclusion mode is `Check`, send
`SwarmCommand::SendOnchainMintFound(claim)` unconditionally. -/
def handle_resolve_onchain_mint (c : Controller) (claim : InclusionClaim)
    (markSeenOk : Bool) : StoreState × List SwarmCommand :=
  let store2 := if markSeenOk then c.store.mark_seen_on_chain claim else c.store
  let cmds : List SwarmCommand :=
    if c.inclusion_mode = .check then [.sendOnchainMintFound claim] else []
  (store2, cmds)

/-! ## `Controller::run_loop` (`src/controller.rs:95-108`)

The loop body is `select!` over `Some(command) = external_commands.recv()` and
`Some(event) = swarm_event_receiver.recv()`, with no `else` branch.  Once a
channel is closed, its `recv()` returns `None`, the `Some(..)` pattern fails,
and that branch is disabled.  tokio's `select!` panics at runtime when every
branch is disabled and there is no `else` branch, so the loop ends in a panic,
not a normal return.  The model below consumes the residual messages of the
two closed channels (message payloads abstracted to counts — handling a
message never re-enables a closed channel, so only the counts matter and the
outcome is the same for every `select!` interleaving). -/

/-- How `run_loop` ends once both channels are closed. -/
inductive RunLoopTermination where
  | normalReturn
  | panicked
deriving DecidableEq, Repr

/-- `run_loop` after both channels closed, with `cmds` and `evts` the residual
buffered messages: each iteration handles one message; when both buffers are
empty both `select!` branches are disabled and `select!` panics. -/
def run_loop_after_close (cmds evts : Nat) : RunLoopTermination :=
  match cmds, evts with
  | 0, 0 => .panicked
  | n + 1, e => run_loop_after_close n e
  | 0, e + 1 => run_loop_after_close 0 e

/-! ## MintChecker (`src/chain.rs:38-115`) -/

/-- An alloy log `Filter` as the embedded code builds it: an address, an event
signature, and the optional `from_block` that `filter.from_block(b)` sets. -/
structure Filter where
  address : Nat
  event_signature : String
  from_block : Option Nat
deriving DecidableEq, Repr

/-- `Filter::from_block`. -/
def Filter.fromBlock (f : Filter) (b : Nat) : Filter :=
  { f with from_block := some b }

/-- `ZoraPremintV2::check_filter` (`v2.rs:100-110`): `None` off the supported
chains `[7777777, 8453]`, otherwise a filter on the factory address and the
`PremintedV2` event signature (the signature string itself comes from the ABI
in `contract.rs`; its identity is all the embedded code uses). -/
def ZoraPremintV2.check_filter (chain_id : Nat) : Option Filter :=
  if chain_id ∈ [7777777, 8453] then
    some { address := PREMINT_FACTORY_ADDR
           event_signature := "PremintedV2"
           from_block := none }
  else none

/-- The mutable state `MintChecker::poll_for_new_mints` carries across
iterations of its reconnect loop: `highest_block: Option<u64>` and the filter
variable it rewrites before each subscription. -/
structure CheckerState where
  highest_block : Option Nat
  filter : Filter
deriving DecidableEq, Repr

/-- One log of the inner `while let` (`chain.rs:93-113`): `map_claim`; on
success the claim is sent to the controller as `ResolveOnchainMint` (on error
only a log line); then `highest_block` is updated from `log.block_number` when
present.  Returns the new state and the claim sent, if any. -/
def checker_handle_log (chain_id : Nat) (st : CheckerState) (log : Log) :
    CheckerState × Option InclusionClaim :=
  let sent := (ZoraPremintV2.map_claim chain_id log).toOption
  let st2 :=
    match log.block_number with
    | some block_number => { st with highest_block := some block_number }
    | none => st
  (st2, sent)

/-- The inner subscription loop over the logs one subscription delivers before
its stream ends, accumulating the claims sent to the controller. -/
def checker_run_session (chain_id : Nat) (st : CheckerState) (logs : List Log) :
    CheckerState × List InclusionClaim :=
  match logs with
  | [] => (st, [])
  | log :: rest =>
      let (st2, sent) := checker_handle_log chain_id st log
      let (st3, sents) := checker_run_session chain_id st2 rest
      (st3, sent.toList ++ sents)

/-- The top of the reconnect loop (`chain.rs:80-83`): before subscribing,
`if let Some(highest_block) = highest_block { filter = filter.from_block(highest_block) }`. -/
def checker_resubscribe (st : CheckerState) : CheckerState :=
  match st.highest_block with
  | some highest_block => { st with filter := st.filter.fromBlock highest_block }
  | none => st

/-- `poll_for_new_mints` run over a list of subscription sessions, each the
list of logs that subscription delivered before its stream terminated (a
failed provider or subscription attempt is a session with no logs).  Each
iteration first rewrites the filter from `highest_block`, subscribes with that
filter, then consumes the session's logs. -/
def checker_run (chain_id : Nat) (st : CheckerState)
    (sessions : List (List Log)) : CheckerState × List InclusionClaim :=
  match sessions with
  | [] => (st, [])
  | logs :: rest =>
      let st1 := checker_resubscribe st
      let (st2, sent) := checker_run_session chain_id st1 logs
      let (st3, sents) := checker_run chain_id st2 rest
      (st3, sent ++ sents)

/-- The block number of the most recently received log that carried one,
starting from `init`. -/
def lastObservedBlock (init : Option Nat) (logs : List Log) : Option Nat :=
  match (logs.filterMap Log.block_number).getLast? with
  | some b => some b
  | none => init

/-! ## `start_services` (`src/run.rs:13-70`) -/

/-- The configuration fields `start_services` reads for checker startup:
the inclusion mode, the supported chains, and whether `config.rpc_url`
resolves for a chain (env `CHAIN_<id>_RPC_WSS`). -/
structure RunConfig where
  chain_inclusion_mode : ChainInclusionMode
  supported_chains : List Nat
  rpc_url : List (Nat × String)
deriving DecidableEq, Repr

/-- What `start_services` does about checkers (`run.rs:63-67`): when the mode
is `Check` it iterates the supported chains and resolves each RPC URL with
`.expect(..)` — panicking on a missing URL — but the loop body binds `rpc_url`
and does nothing further: no `MintChecker` is constructed or spawned on any
path.  Returns the list of chain ids a `MintChecker` task was spawned for, or
`none` for the `.expect` panic. -/
def start_services_checkers (config : RunConfig) : Option (List Nat) :=
  if config.chain_inclusion_mode = .check then
    if config.supported_chains.all
        (fun chain_id => (config.rpc_url.find? (fun e => e.1 == chain_id)).isSome)
    then some []
    else none
  else some []

/-! ## Helper lemmas and concrete scenario values -/

/-- The sixteen lowercase hex characters. -/
def lowerHexAlphabet : List Char :=
  "0123456789abcdef".toList

theorem digitChar_mem_lowerHex (d : Nat) (h : d < 16) :
    Nat.digitChar d ∈ lowerHexAlphabet := by
  interval_cases d <;> decide

theorem addressDebugFmt_data (a : Nat) :
    (addressDebugFmt a).data
      = '0' :: 'x' :: (List.range 40).reverse.map
          (fun i => Nat.digitChar (a / 16 ^ i % 16)) := by
  simp [addressDebugFmt, String.data_append]

/-- A concrete `PremintedV2` event used in witnesses. -/
def evW : PremintedV2 := { contractAddress := 0xAB, uid := 1 }

/-- A concrete premint matching `evW` on chain 7777777. -/
def premintW : ZoraPremintV2 :=
  { collection := { contractAdmin := 3, contractURI := "u", contractName := "n" }
    premint :=
      { tokenConfig :=
          { tokenURI := "t", maxSupply := 10, maxTokensPerAddress := 1
            pricePerToken := 0, mintStart := 0, mintDuration := 0
            royaltyBPS := 0, payoutRecipient := 0, fixedPriceMinter := 0
            createReferral := 0 }
        uid := 1, version := 2, deleted := false }
    collection_address := 0xAB
    chain_id := 7777777
    signature := "sig" }

/-- `premintW` with a different signature: agrees with `premintW` on
`(chain_id, collection_address, premint.uid)`. -/
def premintW2 : ZoraPremintV2 := { premintW with signature := "other" }

/-- A concrete inclusion claim for `premintW`. -/
def claimW : InclusionClaim :=
  { premint_id := event_to_guid 7777777 evW
    chain_id := 7777777
    tx_hash := 5
    log_index := 0
    kind := "zora_premint_v2" }

/-- A log that decodes to `evW`, emitted by the factory in transaction 5. -/
def logW : Log :=
  { address := PREMINT_FACTORY_ADDR
    decoded := some evW
    transaction_hash := some 5
    log_index := some 0
    block_number := some 100 }

/-- The receipt of transaction 5, whose only log is `logW`. -/
def txW : TransactionReceipt := { transaction_hash := 5, logs := [logW] }

/-- A chain context where chain 7777777 knows transaction 5. -/
def ctxW : ChainContext :=
  { chains := [(7777777, { receipts := [(5, txW)] })] }

/-- A store holding `premintW` under its guid, nothing seen yet. -/
def storeW : StoreState :=
  { premints := [("zora_premint_v2", claimW.premint_id, premintW)], seen := [] }

/-! ## Claims -/

/-- C10: for every `ZoraPremintV2` value, including those whose
`collection_address` field is non-zero, `metadata().collection_address` is the
default (all-zero) address — the premint's actual collection address reaches
the metadata only through the id string. -/
theorem metadata_collection_address_defaulted (p : ZoraPremintV2) :
    p.metadata.collection_address = 0 ∧
    (p.collection_address ≠ 0 → p.metadata.collection_address ≠ p.collection_address) := by
  refine ⟨rfl, fun h => ?_⟩
  simpa [ZoraPremintV2.metadata] using fun hc => h hc.symm

/-- C10 witness: a premint with the non-zero collection address `0xAB` still
gets the all-zero metadata collection address. -/
theorem metadata_collection_address_defaulted_witness :
    premintW.metadata.collection_address = 0
    ∧ premintW.metadata.collection_address ≠ premintW.collection_address :=
  ⟨(metadata_collection_address_defaulted premintW).1,
   (metadata_collection_address_defaulted premintW).2 (by decide)⟩

/-- C5: `metadata().id` is exactly
`"{chain_id}:{collection_address:?}:{uid}"` with the address rendered as a
0x-prefixed 40-character lowercase-hex string and the integers in decimal; the
id depends only on `(chain_id, collection_address, premint.uid)`, and
`event_to_guid` on an event with the same fields yields the same string. -/
theorem metadata_id_guid_format (p q : ZoraPremintV2) (ev : PremintedV2) :
    p.metadata.id
      = toString p.chain_id ++ ":" ++ addressDebugFmt p.collection_address
          ++ ":" ++ toString p.premint.uid
    ∧ (addressDebugFmt p.collection_address).length = 42
    ∧ (addressDebugFmt p.collection_address).data.take 2 = ['0', 'x']
    ∧ (∀ c ∈ (addressDebugFmt p.collection_address).data.drop 2,
        c ∈ lowerHexAlphabet)
    ∧ (p.chain_id = q.chain_id → p.collection_address = q.collection_address →
        p.premint.uid = q.premint.uid → p.metadata.id = q.metadata.id)
    ∧ (ev.contractAddress = p.collection_address → ev.uid = p.premint.uid →
        event_to_guid p.chain_id ev = p.metadata.id) := by
  refine ⟨rfl, ?_, ?_, ?_, ?_, ?_⟩
  · show (addressDebugFmt p.collection_address).data.length = 42
    rw [addressDebugFmt_data]
    simp only [List.length_cons, List.length_map, List.length_reverse,
      List.length_range]
  · rw [addressDebugFmt_data]
    rfl
  · rw [addressDebugFmt_data]
    intro c hc
    simp only [List.drop] at hc
    rcases List.mem_map.mp hc with ⟨i, _, rfl⟩
    exact digitChar_mem_lowerHex _ (Nat.mod_lt _ (by norm_num))
  · intro h1 h2 h3
    simp [ZoraPremintV2.metadata, h1, h2, h3]
  · intro h1 h2
    simp [event_to_guid, ZoraPremintV2.metadata, h1, h2]

/-- C5 witness: two premints agreeing on `(chain_id, collection_address, uid)`
share an id, and `event_to_guid` on the matching event reproduces it. -/
theorem metadata_id_guid_format_witness :
    premintW.metadata.id = premintW2.metadata.id
    ∧ event_to_guid 7777777 evW = premintW.metadata.id :=
  ⟨(metadata_id_guid_format premintW premintW2 evW).2.2.2.2.1 rfl rfl rfl,
   (metadata_id_guid_format premintW premintW2 evW).2.2.2.2.2 rfl rfl⟩

/-- C4: `verify_claim` returns `true` iff the log decodes as a `PremintedV2`
event and all nine conditions hold — factory address, log/receipt tx-hash
agreement, claim tx-hash, claim log index, reconstructed guid, kind string,
chain id, and the premint's collection address and uid versus the event. -/
theorem verify_claim_iff (self : ZoraPremintV2) (chain_id : Nat)
    (tx : TransactionReceipt) (log : Log) (claim : InclusionClaim) :
    self.verify_claim chain_id tx log claim = true ↔
      ∃ event, log.decoded = some event
        ∧ log.address = PREMINT_FACTORY_ADDR
        ∧ log.transaction_hash.getD 0 = tx.transaction_hash
        ∧ claim.tx_hash = tx.transaction_hash
        ∧ claim.log_index = log.log_index.getD 0
        ∧ claim.premint_id = event_to_guid chain_id event
        ∧ claim.kind = "zora_premint_v2"
        ∧ claim.chain_id = chain_id
        ∧ self.collection_address = event.contractAddress
        ∧ self.premint.uid = event.uid := by
  unfold ZoraPremintV2.verify_claim
  cases h : log.decoded with
  | none => simp
  | some event => simp [List.all, Bool.and_eq_true, beq_iff_eq, and_assoc]

/-- C1: in `Check` or `Verify` mode the handler marks a peer claim seen
exactly when the referenced premint is in the store under
`(claim.premint_id, claim.kind)` and `inclusion_claim_correct` returns
`Ok(true)`; when the premint is absent, or the check returns `Ok(false)` or an
error, the store is untouched. -/
theorem peer_claim_mark_seen_iff (c : Controller) (ctx : ChainContext)
    (pc : PeerInclusionClaim)
    (hmode : c.inclusion_mode = .check ∨ c.inclusion_mode = .verify) :
    ((∃ p, c.store.get_for_id_and_kind pc.claim.premint_id pc.claim.kind = some p
        ∧ inclusion_claim_correct ctx p pc.claim = .ok true) →
      (handle_event_onchain_claim c ctx pc).1 = c.store.mark_seen_on_chain pc.claim)
    ∧ (¬ (∃ p, c.store.get_for_id_and_kind pc.claim.premint_id pc.claim.kind = some p
        ∧ inclusion_claim_correct ctx p pc.claim = .ok true) →
      (handle_event_onchain_claim c ctx pc).1 = c.store) := by
  have hb : handle_event_onchain_claim c ctx pc =
      match c.store.get_for_id_and_kind pc.claim.premint_id pc.claim.kind with
      | none => (c.store, .error "Error getting premint for onchain claim")
      | some premint =>
          match inclusion_claim_correct ctx premint pc.claim with
          | .ok true => (c.store.mark_seen_on_chain pc.claim, .ok ())
          | _ => (c.store, .ok ()) := by
    rcases hmode with h | h <;> rw [handle_event_onchain_claim, h]
  constructor
  · rintro ⟨p, hget, hicc⟩
    rw [hb]
    simp [hget, hicc]
  · intro hno
    rw [hb]
    cases hget : c.store.get_for_id_and_kind pc.claim.premint_id pc.claim.kind with
    | none => simp
    | some p =>
        cases hicc : inclusion_claim_correct ctx p pc.claim with
        | error e => simp [hicc]
        | ok b =>
            cases b with
            | false => simp [hicc]
            | true => exact absurd ⟨p, hget, hicc⟩ hno

/-- C1 witness: in `Check` mode a peer claim whose premint is stored and whose
on-chain check evaluates to `Ok(true)` gets marked seen; in `Verify` mode the
same claim against an empty store leaves the store untouched. -/
theorem peer_claim_mark_seen_iff_witness :
    (handle_event_onchain_claim
        { trusted_peers := [], inclusion_mode := .check, store := storeW }
        ctxW { from_peer_id := 9, claim := claimW }).1
      = storeW.mark_seen_on_chain claimW
    ∧ (handle_event_onchain_claim
        { trusted_peers := [], inclusion_mode := .verify,
          store := { premints := [], seen := [] } }
        ctxW { from_peer_id := 9, claim := claimW }).1
      = { premints := [], seen := [] } :=
  ⟨(peer_claim_mark_seen_iff
      { trusted_peers := [], inclusion_mode := .check, store := storeW }
      ctxW { from_peer_id := 9, claim := claimW }
      (Or.inl rfl)).1 ⟨premintW, rfl, rfl⟩,
   (peer_claim_mark_seen_iff
      { trusted_peers := [], inclusion_mode := .verify,
        store := { premints := [], seen := [] } }
      ctxW { from_peer_id := 9, claim := claimW }
      (Or.inr rfl)).2
      (by simp [StoreState.get_for_id_and_kind])⟩

/-- C2: in `Trust` mode a peer claim from a peer in `trusted_peers` is marked
seen; from any other peer the store is unchanged and the handler returns
`Ok(())` (the claim is only logged). -/
theorem trust_mode_gating (c : Controller) (ctx : ChainContext)
    (pc : PeerInclusionClaim) (hmode : c.inclusion_mode = .trust) :
    (pc.from_peer_id ∈ c.trusted_peers →
      (handle_event_onchain_claim c ctx pc).1 = c.store.mark_seen_on_chain pc.claim)
    ∧ (pc.from_peer_id ∉ c.trusted_peers →
      (handle_event_onchain_claim c ctx pc).1 = c.store
        ∧ (handle_event_onchain_claim c ctx pc).2 = .ok ()) := by
  have hb : handle_event_onchain_claim c ctx pc =
      if pc.from_peer_id ∈ c.trusted_peers then
        (c.store.mark_seen_on_chain pc.claim, .ok ())
      else (c.store, .ok ()) := by
    rw [handle_event_onchain_claim, hmode]
  constructor
  · intro hmem
    rw [hb, if_pos hmem]
  · intro hmem
    rw [hb, if_neg hmem]
    exact ⟨rfl, rfl⟩

/-- C2 witness: with `trusted_peers = [9]` the claim from peer 9 is marked
seen; with an empty trusted list the same claim leaves the store unchanged. -/
theorem trust_mode_gating_witness :
    (handle_event_onchain_claim
        { trusted_peers := [9], inclusion_mode := .trust, store := storeW }
        ctxW { from_peer_id := 9, claim := claimW }).1
      = storeW.mark_seen_on_chain claimW
    ∧ (handle_event_onchain_claim
        { trusted_peers := [], inclusion_mode := .trust, store := storeW }
        ctxW { from_peer_id := 9, claim := claimW }).1
      = storeW :=
  ⟨(trust_mode_gating
      { trusted_peers := [9], inclusion_mode := .trust, store := storeW }
      ctxW { from_peer_id := 9, claim := claimW } rfl).1 (by decide),
   ((trust_mode_gating
      { trusted_peers := [], inclusion_mode := .trust, store := storeW }
      ctxW { from_peer_id := 9, claim := claimW } rfl).2 (by decide)).1⟩

/-- C3: the `Broadcast` handler attempts exactly one reply; the swarm
`Broadcast` command is emitted iff `validate_and_insert` succeeded; on success
the reply is `Ok(())` or the swarm-send failure, and on failure the reply
wraps the `validate_and_insert` error and nothing is sent to the swarm. -/
theorem broadcast_reply_paths (store : StoreState) (premint : ZoraPremintV2)
    (evalRes : Except String Results) (swarmSendOk : Bool) :
    (handle_broadcast store premint evalRes swarmSendOk).2.2.length = 1
    ∧ ((handle_broadcast store premint evalRes swarmSendOk).2.1
        = [SwarmCommand.broadcast premint]
      ↔ (validate_and_insert store premint evalRes).isOk = true)
    ∧ (∀ ev store2,
        validate_and_insert store premint evalRes = .ok (ev, store2) →
          (handle_broadcast store premint evalRes swarmSendOk).2.2
            = [if swarmSendOk then .ok else .errSwarmSend]
          ∧ (handle_broadcast store premint evalRes swarmSendOk).1 = store2)
    ∧ (∀ e, validate_and_insert store premint evalRes = .error e →
        (handle_broadcast store premint evalRes swarmSendOk).2.2
          = [.errValidation e]
        ∧ (handle_broadcast store premint evalRes swarmSendOk).2.1 = []
        ∧ (handle_broadcast store premint evalRes swarmSendOk).1 = store) := by
  cases hv : validate_and_insert store premint evalRes with
  | ok pair =>
      obtain ⟨ev, store2⟩ := pair
      refine ⟨?_, ?_, ?_, ?_⟩
      · cases swarmSendOk <;> simp [handle_broadcast, hv]
      · cases swarmSendOk <;> simp [handle_broadcast, hv, Except.isOk, Except.toBool]
      · rintro ev2 store3 hv2
        cases hv2
        cases swarmSendOk <;> simp [handle_broadcast, hv]
      · intro e hv2
        cases hv2
  | error e =>
      refine ⟨?_, ?_, ?_, ?_⟩
      · simp [handle_broadcast, hv]
      · simp [handle_broadcast, hv, Except.isOk, Except.toBool]
      · rintro ev2 store3 hv2
        cases hv2
      · intro e2 hv2
        cases hv2
        simp [handle_broadcast, hv]

/-- A rules evaluation with a single accepting rule. -/
def resultsAcceptW : Results := { outcomes := [("all_accept", true)] }

/-- The store after `storeW.store` of a fresh premint in an empty store. -/
def storeAfterW : StoreState :=
  { premints := [("zora_premint_v2", premintW.metadata.id, premintW)]
    seen := [] }

/-- A rules evaluation with one rejecting rule. -/
def resultsRejectW : Results := { outcomes := [("rejecting_rule", false)] }

/-- C3 witness: on an accepting evaluation over an empty store with a working
swarm channel, the one reply is `Ok(())` and the premint lands in the store;
on a rejecting evaluation the reply wraps the rules failure and nothing
reaches the swarm. -/
theorem broadcast_reply_paths_witness :
    ((handle_broadcast { premints := [], seen := [] } premintW
        (.ok resultsAcceptW) true).2.2 = [BroadcastReply.ok]
      ∧ (handle_broadcast { premints := [], seen := [] } premintW
        (.ok resultsAcceptW) true).1 = storeAfterW)
    ∧ (handle_broadcast { premints := [], seen := [] } premintW
        (.ok resultsRejectW) true).2.2
        = [BroadcastReply.errValidation (.validationFailed resultsRejectW)]
    ∧ (handle_broadcast { premints := [], seen := [] } premintW
        (.ok resultsRejectW) true).2.1 = [] :=
  ⟨(broadcast_reply_paths { premints := [], seen := [] } premintW
      (.ok resultsAcceptW) true).2.2.1 resultsAcceptW storeAfterW rfl,
   ((broadcast_reply_paths { premints := [], seen := [] } premintW
      (.ok resultsRejectW) true).2.2.2 (.validationFailed resultsRejectW)
      rfl).1,
   ((broadcast_reply_paths { premints := [], seen := [] } premintW
      (.ok resultsRejectW) true).2.2.2 (.validationFailed resultsRejectW)
      rfl).2.1⟩

/-- C9: the `ResolveOnchainMint` handler in `Check` mode forwards
`SendOnchainMintFound(claim)` for every claim, with no validation and even
when `mark_seen_on_chain` failed; the mark-seen attempt happens for every
claim as well. -/
theorem resolve_onchain_mint_forwards_unconditionally (c : Controller)
    (claim : InclusionClaim) (markSeenOk : Bool)
    (hmode : c.inclusion_mode = .check) :
    (handle_resolve_onchain_mint c claim markSeenOk).2
      = [SwarmCommand.sendOnchainMintFound claim]
    ∧ (markSeenOk = true →
        (handle_resolve_onchain_mint c claim markSeenOk).1
          = c.store.mark_seen_on_chain claim)
    ∧ (markSeenOk = false →
        (handle_resolve_onchain_mint c claim markSeenOk).1 = c.store) := by
  refine ⟨by simp [handle_resolve_onchain_mint, hmode], fun h => ?_,
    fun h => ?_⟩ <;> simp [handle_resolve_onchain_mint, hmode, h]

/-- C9 witness: with a failing `mark_seen_on_chain` the announcement is still
forwarded and the store is left unchanged; with a succeeding one the claim is
marked. -/
theorem resolve_onchain_mint_forwards_unconditionally_witness :
    (handle_resolve_onchain_mint
        { trusted_peers := [], inclusion_mode := .check, store := storeW }
        claimW false).2
      = [SwarmCommand.sendOnchainMintFound claimW]
    ∧ (handle_resolve_onchain_mint
        { trusted_peers := [], inclusion_mode := .check, store := storeW }
        claimW false).1 = storeW
    ∧ (handle_resolve_onchain_mint
        { trusted_peers := [], inclusion_mode := .check, store := storeW }
        claimW true).1 = storeW.mark_seen_on_chain claimW :=
  ⟨(resolve_onchain_mint_forwards_unconditionally
      { trusted_peers := [], inclusion_mode := .check, store := storeW }
      claimW false rfl).1,
   (resolve_onchain_mint_forwards_unconditionally
      { trusted_peers := [], inclusion_mode := .check, store := storeW }
      claimW false rfl).2.2 rfl,
   (resolve_onchain_mint_forwards_unconditionally
      { trusted_peers := [], inclusion_mode := .check, store := storeW }
      claimW true rfl).2.1 rfl⟩

/-- The running-maximum update the checker applies per log, as a fold step. -/
theorem lastObservedBlock_cons (init : Option Nat) (log : Log) (rest : List Log) :
    lastObservedBlock init (log :: rest)
      = lastObservedBlock
          (match log.block_number with
           | some b => some b
           | none => init) rest := by
  unfold lastObservedBlock
  cases h : log.block_number with
  | none => simp [List.filterMap_cons, h]
  | some b =>
      simp only [List.filterMap_cons, h, List.getLast?_cons]
      cases hg : (rest.filterMap Log.block_number).getLast? <;> simp [hg]

theorem checker_run_session_highest (chain_id : Nat) (st : CheckerState)
    (logs : List Log) :
    (checker_run_session chain_id st logs).1.highest_block
        = lastObservedBlock st.highest_block logs
    ∧ (checker_run_session chain_id st logs).1.filter = st.filter := by
  induction logs generalizing st with
  | nil => exact ⟨rfl, rfl⟩
  | cons log rest ih =>
      rw [lastObservedBlock_cons]
      cases h : log.block_number with
      | none =>
          simpa [checker_run_session, checker_handle_log, h]
            using ih st
      | some b =>
          simpa [checker_run_session, checker_handle_log, h]
            using ih { st with highest_block := some b }

/-- Processing `l1` and then `l2` observes the same last block as processing
`l1 ++ l2`. -/
theorem lastObservedBlock_append (init : Option Nat) (l1 l2 : List Log) :
    lastObservedBlock (lastObservedBlock init l1) l2
      = lastObservedBlock init (l1 ++ l2) := by
  induction l1 generalizing init with
  | nil => rfl
  | cons a tl ih =>
      rw [List.cons_append, lastObservedBlock_cons, lastObservedBlock_cons]
      exact ih _

/-- C7: across the reconnect loop, `highest_block` always equals the block
number of the most recently received log that carried one (`none` before any
such log), and the filter the next subscription would use has
`from_block = highest_block` once a block has been observed — so the
resubscription range starts at (hence no earlier than) the last observed
block.  `sessions` ranges over all prefixes of the subscription history, so
this covers every resubscription point. -/
theorem checker_highest_block_resubscribe (chain_id : Nat) (st : CheckerState)
    (sessions : List (List Log)) :
    (checker_run chain_id st sessions).1.highest_block
        = lastObservedBlock st.highest_block sessions.flatten
    ∧ ∀ hb, (checker_run chain_id st sessions).1.highest_block = some hb →
        (checker_resubscribe (checker_run chain_id st sessions).1).filter.from_block
          = some hb := by
  constructor
  · induction sessions generalizing st with
    | nil => rfl
    | cons logs rest ih =>
        have hsess := checker_run_session_highest chain_id
          (checker_resubscribe st) logs
        have hresub : (checker_resubscribe st).highest_block = st.highest_block := by
          unfold checker_resubscribe
          cases h : st.highest_block <;> simp [h]
        have hstep : (checker_run chain_id st (logs :: rest)).1
            = (checker_run chain_id
                (checker_run_session chain_id (checker_resubscribe st) logs).1
                rest).1 := by
          simp [checker_run]
        rw [hstep, ih, hsess.1, hresub, List.flatten_cons,
          lastObservedBlock_append]
  · intro hb hhb
    unfold checker_resubscribe
    rw [hhb]
    rfl

/-- A filter with no `from_block`, as `check_filter` first returns it. -/
def filterW : Filter :=
  { address := PREMINT_FACTORY_ADDR, event_signature := "PremintedV2"
    from_block := none }

/-- C7 witness: after one session delivering `logW` (block 100), the state's
`highest_block` is 100 and the next resubscription's filter starts from
block 100. -/
theorem checker_highest_block_resubscribe_witness :
    (checker_run 7777777 { highest_block := none, filter := filterW }
        [[logW]]).1.highest_block = some 100
    ∧ (checker_resubscribe
        (checker_run 7777777 { highest_block := none, filter := filterW }
          [[logW]]).1).filter.from_block = some 100 :=
  ⟨(checker_highest_block_resubscribe 7777777
      { highest_block := none, filter := filterW } [[logW]]).1.trans rfl,
   (checker_highest_block_resubscribe 7777777
      { highest_block := none, filter := filterW } [[logW]]).2 100
      ((checker_highest_block_resubscribe 7777777
        { highest_block := none, filter := filterW } [[logW]]).1.trans rfl)⟩

/-- C8 counterexample: with both channels closed and no residual messages,
`run_loop` ends in the `select!` panic, not a normal return. -/
theorem run_loop_close_not_normal :
    run_loop_after_close 0 0 = .panicked
    ∧ run_loop_after_close 0 0 ≠ .normalReturn := by
  have h : run_loop_after_close 0 0 = .panicked := by
    simp [run_loop_after_close]
  exact ⟨h, by rw [h]; intro hcon; cases hcon⟩

/-- C8 amended: once both channels are closed, `run_loop` drains the residual
messages and then terminates — it does not diverge — but it terminates by the
`select!` all-branches-disabled panic rather than by returning normally. -/
theorem run_loop_after_close_panics (cmds evts : Nat) :
    run_loop_after_close cmds evts = .panicked := by
  induction cmds, evts using run_loop_after_close.induct <;>
    simp [run_loop_after_close, *]

/-- C6 evaluation at the failing input: with `Check` mode, one supported chain
and its RPC URL configured, `start_services` spawns no `MintChecker` — the
loop resolves the URL and drops it. -/
theorem start_services_spawns_no_checker :
    start_services_checkers
        { chain_inclusion_mode := .check
          supported_chains := [7777777]
          rpc_url := [(7777777, "wss://rpc.example")] }
      = some [] := rfl

end Mintpool
